import Mathlib

/-!
Shallow embedding of the statistical computation layer of the SYSTAT
hypothesis-testing service (Flask endpoints for two-proportion Z-test,
one-sample t-test, two-independent-sample t-test, paired t-test).

Conventions of the embedding:
* Exact numbers are rationals (`ℚ`).  External numeric routines of the
  Python libraries (`math.sqrt`, `np.sqrt`, `scipy.stats.norm.cdf/ppf`,
  `scipy.stats.t.cdf/ppf`, `stats.shapiro`, `lilliefors`, `stats.levene`,
  the `statsmodels` power solvers, `stats.nct.sf`) are opaque parameters,
  collected in the structure `Dists`; the engines are functions of such a
  parameter bundle, exactly as the Python code is a client of those
  libraries.
* Pure-Python float division (used by `z_test_api.py`) raises
  `ZeroDivisionError` on a zero denominator; the embedding makes that an
  explicit zero test returning an error value.  The t-test engines divide
  numpy scalars, and numpy float division by zero does NOT raise (it
  yields ±inf/nan with a warning); those engines therefore use total
  division and never produce a division error, mirroring the runtime
  behaviour of the source.
* Display rounding (`round(x, 3)` etc.) is presentation-layer formatting
  and is omitted; every result field holds the computed quantity.
-/

namespace Systat

/-- Opaque numeric routines supplied by the Python numeric libraries.
`sqrt` stands for `math.sqrt`/`np.sqrt` (and the square root inside
`np.std`), `normCdf`/`normPpf` for `scipy.stats.norm.cdf`/`.ppf`,
`tCdf x df`/`tPpf q df` for `scipy.stats.t.cdf`/`.ppf`, `shapiroP` for the
p-value of `scipy.stats.shapiro`, `lillieforsP` for the p-value of
`statsmodels`' `lilliefors`, `leveneMeanP`/`leveneTrimmedP` for the
p-values of `scipy.stats.levene` with `center='mean'`/`center='trimmed'`,
`powerTTwoSided`/`powerTSmaller` for `TTestPower().solve_power` with
`alternative='two-sided'`/`'smaller'` (arguments: effect size, nobs,
alpha), `powerTInd` for `TTestIndPower().solve_power` (effect size, nobs1,
ratio, alpha), and `nctSf x df nc` for `scipy.stats.nct.sf`. -/
structure Dists where
  sqrt : ℚ → ℚ
  normCdf : ℚ → ℚ
  normPpf : ℚ → ℚ
  tCdf : ℚ → ℚ → ℚ
  tPpf : ℚ → ℚ → ℚ
  shapiroP : List ℚ → ℚ
  lillieforsP : List ℚ → ℚ
  leveneMeanP : List ℚ → List ℚ → ℚ
  leveneTrimmedP : List ℚ → List ℚ → ℚ
  powerTTwoSided : ℚ → ℚ → ℚ → ℚ
  powerTSmaller : ℚ → ℚ → ℚ → ℚ
  powerTInd : ℚ → ℚ → ℚ → ℚ → ℚ
  nctSf : ℚ → ℚ → ℚ → ℚ

/-- `np.mean(l)`: sum divided by length. -/
def mean (l : List ℚ) : ℚ := l.sum / l.length

/-- `np.var(l, ddof=1)`: Bessel-corrected sample variance
(sum of squared deviations from the mean, divided by `n - 1`). -/
def sampleVar (l : List ℚ) : ℚ :=
  ((l.map fun x => (x - mean l) ^ 2).sum) / ((l.length : ℚ) - 1)

/-- The two-valued conclusion of every test family: the "reject the null
hypothesis / significant difference" string versus the "not rejected / no
significant difference" string.  The interpolated numeric text of the
concrete strings is abstracted away; the constructor records which of the
two strings is produced. -/
inductive Conclusion
  | reject
  | noReject
deriving DecidableEq

/-- A normality-test entry: its p-value and its "Passed"/"Failed"
classification (`passed = true` ↔ the string "Passed"). -/
structure NormEntry where
  pValue : ℚ
  passed : Bool
deriving DecidableEq

/-! ## Two-proportion Z-test (`z_test_api.py`, `perform_z_test`) -/

/-- Failure outcomes of `perform_z_test`: the explicit 400 validation
responses of the route, and `ZeroDivisionError` (mapped by the handler to
the 400 division-by-zero response). -/
inductive ZError
  | badAlpha
  | badYates
  | badConfidence
  | badProportions
  | zeroDivision
deriving DecidableEq

/-- The result dictionary assembled by `perform_z_test` (computation
fields). -/
structure ZTestResult where
  diffProportions : ℚ
  pooledP : ℚ
  standardError : ℚ
  zScore : ℚ
  pValue : ℚ
  ciLower : ℚ
  ciUpper : ℚ
  power : ℚ
  conclusion : Conclusion
deriving DecidableEq

/-- `perform_z_test` of `z_test_api.py`.  Validation checks are those of
the route (alpha in [0,1], yates in [0,1], confidence interval in
[1,99] percent, proportions in [0,1]); each `= 0` test on a denominator
models Python float division raising `ZeroDivisionError` there, in the
evaluation order of the source (pooled proportion first, then `1/size1`,
`1/size2`, then the z-score's division by the standard error). -/
def performZTest (D : Dists) (alphaValue yatesCorrection confidenceInterval : ℚ)
    (size1 prop1 size2 prop2 : ℚ) : Except ZError ZTestResult :=
  if 0 ≤ alphaValue ∧ alphaValue ≤ 1 then
    if 0 ≤ yatesCorrection ∧ yatesCorrection ≤ 1 then
      if 1 ≤ confidenceInterval ∧ confidenceInterval ≤ 99 then
        if 0 ≤ prop1 ∧ prop1 ≤ 1 ∧ 0 ≤ prop2 ∧ prop2 ≤ 1 then
          if size1 + size2 = 0 then .error .zeroDivision
          else
            let pooledP := (size1 * prop1 + size2 * prop2) / (size1 + size2)
            if size1 = 0 then .error .zeroDivision
            else if size2 = 0 then .error .zeroDivision
            else
              let standardError :=
                D.sqrt (pooledP * (1 - pooledP) * (1 / size1 + 1 / size2))
              if standardError = 0 then .error .zeroDivision
              else
                let zScore := (prop1 - prop2) / standardError
                let pValue := 2 * (1 - D.normCdf |zScore|)
                let zCritical := D.normPpf (1 - (1 - confidenceInterval / 100) / 2)
                let marginOfError := zCritical * standardError
                .ok {
                  diffProportions := prop1 - prop2
                  pooledP := pooledP
                  standardError := standardError
                  zScore := zScore
                  pValue := pValue
                  ciLower := (prop1 - prop2) - marginOfError
                  ciUpper := (prop1 - prop2) + marginOfError
                  power := 1 - D.normCdf (zCritical - |zScore|)
                  conclusion := if pValue < alphaValue then .reject else .noReject }
        else .error .badProportions
      else .error .badConfidence
    else .error .badYates
  else .error .badAlpha

/-- A concrete instance of the numeric-routine bundle, used to evaluate
the engines on concrete inputs (`sqrt := id` satisfies `sqrt 0 = 0` and
`sqrt (a / b) = sqrt a / sqrt b`; all distribution functions are the zero
function, which satisfies `cdf ≤ 1`). -/
def D0 : Dists where
  sqrt := id
  normCdf := fun _ => 0
  normPpf := fun _ => 0
  tCdf := fun _ _ => 0
  tPpf := fun _ _ => 0
  shapiroP := fun _ => 0
  lillieforsP := fun _ => 0
  leveneMeanP := fun _ _ => 0
  leveneTrimmedP := fun _ _ => 0
  powerTTwoSided := fun _ _ _ => 0
  powerTSmaller := fun _ _ _ => 0
  powerTInd := fun _ _ _ _ => 0
  nctSf := fun _ _ _ => 0

/-- Characterization of `performZTest` on the success path: when every
validation guard passes and no denominator is zero, the engine returns
the record built from the source's formulas. -/
theorem performZTest_ok_eq (D : Dists) (alpha yates conf s1 p1 s2 p2 : ℚ)
    (hA : 0 ≤ alpha ∧ alpha ≤ 1) (hY : 0 ≤ yates ∧ yates ≤ 1)
    (hC : 1 ≤ conf ∧ conf ≤ 99) (hP : 0 ≤ p1 ∧ p1 ≤ 1 ∧ 0 ≤ p2 ∧ p2 ≤ 1)
    (hsum : s1 + s2 ≠ 0) (h1 : s1 ≠ 0) (h2 : s2 ≠ 0)
    (hse : D.sqrt ((s1 * p1 + s2 * p2) / (s1 + s2) *
      (1 - (s1 * p1 + s2 * p2) / (s1 + s2)) * (1 / s1 + 1 / s2)) ≠ 0) :
    performZTest D alpha yates conf s1 p1 s2 p2 = .ok {
      diffProportions := p1 - p2
      pooledP := (s1 * p1 + s2 * p2) / (s1 + s2)
      standardError := D.sqrt ((s1 * p1 + s2 * p2) / (s1 + s2) *
        (1 - (s1 * p1 + s2 * p2) / (s1 + s2)) * (1 / s1 + 1 / s2))
      zScore := (p1 - p2) / D.sqrt ((s1 * p1 + s2 * p2) / (s1 + s2) *
        (1 - (s1 * p1 + s2 * p2) / (s1 + s2)) * (1 / s1 + 1 / s2))
      pValue := 2 * (1 - D.normCdf |(p1 - p2) / D.sqrt ((s1 * p1 + s2 * p2) / (s1 + s2) *
        (1 - (s1 * p1 + s2 * p2) / (s1 + s2)) * (1 / s1 + 1 / s2))|)
      ciLower := (p1 - p2) - D.normPpf (1 - (1 - conf / 100) / 2) *
        D.sqrt ((s1 * p1 + s2 * p2) / (s1 + s2) *
          (1 - (s1 * p1 + s2 * p2) / (s1 + s2)) * (1 / s1 + 1 / s2))
      ciUpper := (p1 - p2) + D.normPpf (1 - (1 - conf / 100) / 2) *
        D.sqrt ((s1 * p1 + s2 * p2) / (s1 + s2) *
          (1 - (s1 * p1 + s2 * p2) / (s1 + s2)) * (1 / s1 + 1 / s2))
      power := 1 - D.normCdf (D.normPpf (1 - (1 - conf / 100) / 2) -
        |(p1 - p2) / D.sqrt ((s1 * p1 + s2 * p2) / (s1 + s2) *
          (1 - (s1 * p1 + s2 * p2) / (s1 + s2)) * (1 / s1 + 1 / s2))|)
      conclusion := if 2 * (1 - D.normCdf |(p1 - p2) / D.sqrt ((s1 * p1 + s2 * p2) / (s1 + s2) *
          (1 - (s1 * p1 + s2 * p2) / (s1 + s2)) * (1 / s1 + 1 / s2))|) < alpha
        then .reject else .noReject } := by
  simp only [performZTest]
  rw [if_pos hA, if_pos hY, if_pos hC, if_pos hP, if_neg hsum, if_neg h1, if_neg h2,
    if_neg hse]

/-- C1: for positive group sizes and proportions in [0,1], the
two-proportion Z-test engine computes the pooled proportion, standard
error, z-score, two-tailed p-value `2·(1 − Φ(|z|))`, and a confidence
interval centered on `p1 − p2` with half-width `z_critical · se`; and
when either group size is 0 the engine fails with the division-by-zero
error instead of returning a result. -/
theorem z_test_spec (D : Dists) (n1 n2 : ℕ) (p1 p2 alpha yates conf : ℚ)
    (hA : 0 ≤ alpha ∧ alpha ≤ 1) (hY : 0 ≤ yates ∧ yates ≤ 1)
    (hC : 1 ≤ conf ∧ conf ≤ 99)
    (hp1 : 0 ≤ p1 ∧ p1 ≤ 1) (hp2 : 0 ≤ p2 ∧ p2 ≤ 1) :
    (∀ (_ : 0 < n1) (_ : 0 < n2)
      (_ : D.sqrt (((n1 : ℚ) * p1 + n2 * p2) / ((n1 : ℚ) + n2) *
        (1 - ((n1 : ℚ) * p1 + n2 * p2) / ((n1 : ℚ) + n2)) *
        (1 / (n1 : ℚ) + 1 / (n2 : ℚ))) ≠ 0),
      ∃ r, performZTest D alpha yates conf (n1 : ℚ) p1 (n2 : ℚ) p2 = .ok r ∧
        r.pooledP = ((n1 : ℚ) * p1 + n2 * p2) / ((n1 : ℚ) + n2) ∧
        r.standardError = D.sqrt (r.pooledP * (1 - r.pooledP) *
          (1 / (n1 : ℚ) + 1 / (n2 : ℚ))) ∧
        r.zScore = (p1 - p2) / r.standardError ∧
        r.pValue = 2 * (1 - D.normCdf |r.zScore|) ∧
        r.ciLower = (p1 - p2) - D.normPpf (1 - (1 - conf / 100) / 2) * r.standardError ∧
        r.ciUpper = (p1 - p2) + D.normPpf (1 - (1 - conf / 100) / 2) * r.standardError) ∧
    ((n1 = 0 ∨ n2 = 0) →
      performZTest D alpha yates conf (n1 : ℚ) p1 (n2 : ℚ) p2 = .error .zeroDivision) := by
  constructor
  · intro hn1 hn2 hse
    have h1 : ((n1 : ℚ)) ≠ 0 := Nat.cast_ne_zero.mpr hn1.ne'
    have h2 : ((n2 : ℚ)) ≠ 0 := Nat.cast_ne_zero.mpr hn2.ne'
    have hsum : ((n1 : ℚ) + n2) ≠ 0 := by
      have ha : (0 : ℚ) < (n1 : ℚ) := by exact_mod_cast hn1
      have hb : (0 : ℚ) ≤ (n2 : ℚ) := Nat.cast_nonneg n2
      exact ne_of_gt (by linarith)
    exact ⟨_, performZTest_ok_eq D alpha yates conf _ p1 _ p2 hA hY hC
      ⟨hp1.1, hp1.2, hp2.1, hp2.2⟩ hsum h1 h2 hse,
      rfl, rfl, rfl, rfl, rfl, rfl⟩
  · intro h0
    simp only [performZTest]
    rw [if_pos hA, if_pos hY, if_pos hC, if_pos ⟨hp1.1, hp1.2, hp2.1, hp2.2⟩]
    rcases h0 with h | h
    · have hc : ((n1 : ℚ)) = 0 := by exact_mod_cast h
      by_cases hz : ((n1 : ℚ) + n2) = 0
      · rw [if_pos hz]
      · rw [if_neg hz, if_pos hc]
    · have hc : ((n2 : ℚ)) = 0 := by exact_mod_cast h
      by_cases hz : ((n1 : ℚ) + n2) = 0
      · rw [if_pos hz]
      · rw [if_neg hz]
        by_cases h1z : ((n1 : ℚ)) = 0
        · rw [if_pos h1z]
        · rw [if_neg h1z, if_pos hc]

theorem z_test_spec_witness :
    (∃ r, performZTest D0 (1/20) 0 95 ((40 : ℕ) : ℚ) (3/10) ((60 : ℕ) : ℚ) (7/10) = .ok r ∧
      r.pooledP = (((40 : ℕ) : ℚ) * (3/10) + ((60 : ℕ) : ℚ) * (7/10)) /
        (((40 : ℕ) : ℚ) + ((60 : ℕ) : ℚ))) ∧
    performZTest D0 (1/20) 0 95 ((0 : ℕ) : ℚ) (3/10) ((60 : ℕ) : ℚ) (7/10) =
      .error .zeroDivision := by
  refine ⟨?_, (z_test_spec D0 0 60 (3/10) (7/10) (1/20) 0 95 (by norm_num) (by norm_num)
    (by norm_num) (by norm_num) (by norm_num)).2 (Or.inl rfl)⟩
  obtain ⟨r, hok, hpool, -⟩ :=
    (z_test_spec D0 40 60 (3/10) (7/10) (1/20) 0 95 (by norm_num) (by norm_num)
      (by norm_num) (by norm_num) (by norm_num)).1
      (by norm_num) (by norm_num) (by norm_num [D0])
  exact ⟨r, hok, hpool⟩

/-- C10: with positive group sizes, when the pooled proportion is exactly
0 or exactly 1 the radicand of the standard error vanishes, so
(`sqrt 0 = 0`) the z-score's division by the standard error fails and the
engine returns the division-by-zero error rather than a result. -/
theorem z_test_degenerate_pooled (D : Dists) (n1 n2 : ℕ) (p1 p2 alpha yates conf : ℚ)
    (hA : 0 ≤ alpha ∧ alpha ≤ 1) (hY : 0 ≤ yates ∧ yates ≤ 1)
    (hC : 1 ≤ conf ∧ conf ≤ 99)
    (hp1 : 0 ≤ p1 ∧ p1 ≤ 1) (hp2 : 0 ≤ p2 ∧ p2 ≤ 1)
    (hn1 : 0 < n1) (hn2 : 0 < n2)
    (hsqrt0 : D.sqrt 0 = 0)
    (hpool : ((n1 : ℚ) * p1 + n2 * p2) / ((n1 : ℚ) + n2) = 0 ∨
      ((n1 : ℚ) * p1 + n2 * p2) / ((n1 : ℚ) + n2) = 1) :
    performZTest D alpha yates conf (n1 : ℚ) p1 (n2 : ℚ) p2 = .error .zeroDivision := by
  have h1 : ((n1 : ℚ)) ≠ 0 := Nat.cast_ne_zero.mpr hn1.ne'
  have h2 : ((n2 : ℚ)) ≠ 0 := Nat.cast_ne_zero.mpr hn2.ne'
  have hsum : ((n1 : ℚ) + n2) ≠ 0 := by
    have ha : (0 : ℚ) < (n1 : ℚ) := by exact_mod_cast hn1
    have hb : (0 : ℚ) ≤ (n2 : ℚ) := Nat.cast_nonneg n2
    exact ne_of_gt (by linarith)
  have hrad : ((n1 : ℚ) * p1 + n2 * p2) / ((n1 : ℚ) + n2) *
      (1 - ((n1 : ℚ) * p1 + n2 * p2) / ((n1 : ℚ) + n2)) *
      (1 / (n1 : ℚ) + 1 / (n2 : ℚ)) = 0 := by
    rcases hpool with h | h <;> rw [h] <;> ring
  simp only [performZTest]
  rw [if_pos hA, if_pos hY, if_pos hC, if_pos ⟨hp1.1, hp1.2, hp2.1, hp2.2⟩,
    if_neg hsum, if_neg h1, if_neg h2, hrad, hsqrt0, if_pos rfl]

theorem z_test_degenerate_pooled_witness :
    performZTest D0 (1/20) 0 95 ((40 : ℕ) : ℚ) 0 ((60 : ℕ) : ℚ) 0 =
      .error .zeroDivision :=
  z_test_degenerate_pooled D0 40 60 0 0 (1/20) 0 95 (by norm_num) (by norm_num)
    (by norm_num) (by norm_num) (by norm_num) (by norm_num) (by norm_num) rfl
    (Or.inl (by norm_num))

/-! ## One-sample t-test (`one_sample_t_test_api.py`, `perform_one_sample_t_test`,
raw-sample input path) -/

/-- Failure outcome of the one-sample engine on the raw-sample path:
fewer than two data points (`ValueError`, mapped to 400).  The numeric
computation itself divides numpy scalars and therefore never raises. -/
inductive OneSampleError
  | invalidSample
deriving DecidableEq

/-- The computation fields of the one-sample t-test result.  `pValue` and
`pTwoTailed` are computed by two identical lines of the source and so are
two (equal) fields here as well. -/
structure OneSampleResult where
  sampleSize : ℕ
  sampleMean : ℚ
  sampleStd : ℚ
  standardError : ℚ
  degreesOfFreedom : ℕ
  tStat : ℚ
  pValue : ℚ
  pTwoTailed : ℚ
  pOneTailed : ℚ
  ciLower : ℚ
  ciUpper : ℚ
  conclusion : Conclusion
  shapiro : Option NormEntry
  kolmogorov : Option NormEntry
  powerTwoTailed : ℚ
  powerOneTailed : ℚ
deriving DecidableEq

/-- `perform_one_sample_t_test` on the raw-sample input path.  All
divisions after the length check act on numpy scalars (`np.mean`,
`np.std`, `np.sqrt` results), whose division by zero yields ±inf/nan
without raising; the embedding accordingly uses total division (Lean's
`x / 0 = 0` standing in for the numpy special value) and returns a result
for every sample of length ≥ 2.  Normality diagnostics run only when the
`DB` flag is set (and classify against the fixed threshold 0.05); the
conclusion compares the two-tailed p-value against `P_value_reject` with
strict less-than. -/
def oneSampleTTest (D : Dists) (sample : List ℚ)
    (populationMean confidenceLevel pValueReject alphaValue : ℚ)
    (shaprioWalk kolmoWithCorrection dbFetched : Bool) :
    Except OneSampleError OneSampleResult :=
  if sample.length < 2 then .error .invalidSample
  else
    let n : ℚ := sample.length
    let sampleMean := mean sample
    let sampleStd := D.sqrt (sampleVar sample)
    let standardError := sampleStd / D.sqrt n
    let df : ℚ := n - 1
    let tStat := (sampleMean - populationMean) / standardError
    let pValue := 2 * (1 - D.tCdf |tStat| df)
    let tCritical := D.tPpf (1 - (1 - confidenceLevel) / 2) df
    let marginOfError := tCritical * standardError
    let effectSize := |sampleMean - populationMean| / sampleStd
    .ok {
      sampleSize := sample.length
      sampleMean := sampleMean
      sampleStd := sampleStd
      standardError := standardError
      degreesOfFreedom := sample.length - 1
      tStat := tStat
      pValue := pValue
      pTwoTailed := 2 * (1 - D.tCdf |tStat| df)
      pOneTailed := 1 - D.tCdf |tStat| df
      ciLower := sampleMean - marginOfError
      ciUpper := sampleMean + marginOfError
      conclusion := if pValue < pValueReject then .reject else .noReject
      shapiro :=
        if dbFetched && shaprioWalk then
          some { pValue := D.shapiroP sample
                 passed := decide ((1 : ℚ)/20 < D.shapiroP sample) }
        else none
      kolmogorov :=
        if dbFetched && kolmoWithCorrection then
          some { pValue := D.lillieforsP sample
                 passed := decide ((1 : ℚ)/20 < D.lillieforsP sample) }
        else none
      powerTwoTailed :=
        D.nctSf (D.tPpf (1 - alphaValue / 2) df) df (effectSize * D.sqrt n)
      powerOneTailed :=
        D.nctSf (D.tPpf (1 - alphaValue) df) df (effectSize * D.sqrt n) }

/-! ## Paired t-test (`paired_t_test_api.py`) -/

/-- The computation fields of `calculate_paired_t_test`. -/
structure PairedResult where
  differences : List ℚ
  meanBefore : ℚ
  meanAfter : ℚ
  stdBefore : ℚ
  stdAfter : ℚ
  meanDiff : ℚ
  stdDiff : ℚ
  semDiff : ℚ
  tStat : ℚ
  degreesOfFreedom : ℕ
  pTwoTailed : ℚ
  pOneTailed : ℚ
  ciLower : ℚ
  ciUpper : ℚ
  shapiro : Option NormEntry
  kolmogorov : Option NormEntry
  powerTwoTailed : ℚ
  powerOneTailed : ℚ
  interpretation : Conclusion
deriving DecidableEq

/-- `calculate_paired_t_test` of `paired_t_test_api.py`.  The differences
are `before - after` elementwise (the line commented "Corrected:
before - after" in the source).  `stats.ttest_rel(before, after)` is
embedded by its formula: `t = mean(d) / sqrt(var(d, ddof=1) / n)` with
`d = before - after` and `n = len(before)`, two-sided p-value
`2·(1 − tCdf(|t|, n−1))`.  `stats.t.interval(c, df, loc, scale)` is
embedded as `loc ± tPpf((1+c)/2, df) · scale`.  All arithmetic is on
numpy scalars, so the embedding uses total division throughout (the
function never raises). -/
def calculatePairedTTest (D : Dists) (before after : List ℚ)
    (confidenceLevel alphaValue : ℚ) (shaprioWalk kolmoWithCorrection : Bool) :
    PairedResult :=
  let differences := List.zipWith (fun x y => x - y) before after
  let n : ℚ := before.length
  let meanDiff := mean differences
  let stdDiff := D.sqrt (sampleVar differences)
  let semDiff := stdDiff / D.sqrt n
  let tStat := mean differences / D.sqrt (sampleVar differences / n)
  let df : ℚ := n - 1
  let pValue := 2 * (1 - D.tCdf |tStat| df)
  let tCritical := D.tPpf ((1 + confidenceLevel) / 2) df
  let effectSize := meanDiff / stdDiff
  { differences := differences
    meanBefore := mean before
    meanAfter := mean after
    stdBefore := D.sqrt (sampleVar before)
    stdAfter := D.sqrt (sampleVar after)
    meanDiff := meanDiff
    stdDiff := stdDiff
    semDiff := semDiff
    tStat := tStat
    degreesOfFreedom := before.length - 1
    pTwoTailed := pValue
    pOneTailed := pValue / 2
    ciLower := meanDiff - tCritical * semDiff
    ciUpper := meanDiff + tCritical * semDiff
    shapiro :=
      if shaprioWalk then
        some { pValue := D.shapiroP differences
               passed := decide ((1 : ℚ)/20 < D.shapiroP differences) }
      else none
    kolmogorov :=
      if kolmoWithCorrection then
        some { pValue := D.lillieforsP differences
               passed := decide ((1 : ℚ)/20 < D.lillieforsP differences) }
      else none
    powerTwoTailed := D.powerTTwoSided effectSize n alphaValue
    powerOneTailed := D.powerTSmaller effectSize n alphaValue
    interpretation := if pValue < alphaValue then .reject else .noReject }

/-- Failure outcomes of the `perform_paired_t_test` route before the
computation is reached. -/
inductive PairedError
  | badConfidence
  | badLists
deriving DecidableEq

/-- The validations of the `perform_paired_t_test` route on the
`before`/`after` input shape: confidence level strictly between 0 and 1,
lists of equal length with at least 2 values; then the computation. -/
def performPairedTTest (D : Dists) (before after : List ℚ)
    (confidenceLevel alphaValue : ℚ) (shaprioWalk kolmoWithCorrection : Bool) :
    Except PairedError PairedResult :=
  if 0 < confidenceLevel ∧ confidenceLevel < 1 then
    if before.length = after.length ∧ 2 ≤ before.length then
      .ok (calculatePairedTTest D before after confidenceLevel alphaValue
        shaprioWalk kolmoWithCorrection)
    else .error .badLists
  else .error .badConfidence

/-- The long-format input path of `perform_paired_t_test`
(`{subject, treatment, values}`): outcome of the pivot-and-check stage,
before any statistics are computed. -/
inductive LongOutcome
  | pivotError
  | missingBeforeAfter
  | proceed (before after : List (Option ℚ))
deriving DecidableEq

/-- Value of the wide-format cell for a given subject and treatment
column: the first matching row's value (`none` stands for pandas' NaN in
a missing cell). -/
def wideCell (rows : List (String × String × ℚ)) (subj col : String) : Option ℚ :=
  (rows.find? fun r => r.1 = subj ∧ r.2.1 = col).map fun r => r.2.2

/-- The pivot-and-check stage of the long-format path of
`perform_paired_t_test`: build the data frame (pandas raises if the three
columns have different lengths), pivot it to wide format (pandas raises
`ValueError` on a duplicate (subject, treatment) pair), then reject with
the 400 response "Invalid format: Missing 'before' or 'after' values."
unless both the literal column labels `"before"` and `"after"` are
present; only then are the two columns extracted and handed to the
computation. -/
def longFormatPivot (subject treatment : List String) (vals : List ℚ) :
    LongOutcome :=
  if subject.length = treatment.length ∧ treatment.length = vals.length then
    let rows := List.zip subject (List.zip treatment vals)
    if (rows.map fun r => (r.1, r.2.1)).Nodup then
      let cols := treatment.dedup
      if "before" ∈ cols ∧ "after" ∈ cols then
        let subjects := subject.dedup
        .proceed (subjects.map fun s => wideCell rows s "before")
          (subjects.map fun s => wideCell rows s "after")
      else .missingBeforeAfter
    else .pivotError
  else .pivotError

/-! ## Two-independent-sample t-test (`two_sample_t_test_api.py`) -/

/-- One diagnostic entry of `perform_normality_and_variance_tests`:
p-value and "Passed"/"Failed" classification. -/
structure VarEntry where
  pValue : ℚ
  passed : Bool
deriving DecidableEq

/-- The dictionary returned by `perform_normality_and_variance_tests`. -/
structure NormVarResults where
  shapiro : Option VarEntry
  kolmogorov : Option VarEntry
  levene : VarEntry
  brownForsythe : VarEntry
deriving DecidableEq

/-- `perform_normality_and_variance_tests` of `two_sample_t_test_api.py`:
each selected normality diagnostic runs on both groups, reports the
minimum of the two p-values, and classifies "Passed" exactly when that
p-value is strictly greater than the `reject_threshold` argument; the two
equal-variance tests classify against the same threshold. -/
def performNormalityAndVarianceTests (D : Dists) (g1 g2 : List ℚ)
    (rejectThreshold : ℚ) (shapiroWilk kolmoWithCorrection : Bool) :
    NormVarResults :=
  { shapiro :=
      if shapiroWilk then
        some { pValue := min (D.shapiroP g1) (D.shapiroP g2)
               passed := decide (rejectThreshold < min (D.shapiroP g1) (D.shapiroP g2)) }
      else none
    kolmogorov :=
      if kolmoWithCorrection then
        some { pValue := min (D.lillieforsP g1) (D.lillieforsP g2)
               passed := decide (rejectThreshold < min (D.lillieforsP g1) (D.lillieforsP g2)) }
      else none
    levene :=
      { pValue := D.leveneMeanP g1 g2
        passed := decide (rejectThreshold < D.leveneMeanP g1 g2) }
    brownForsythe :=
      { pValue := D.leveneTrimmedP g1 g2
        passed := decide (rejectThreshold < D.leveneTrimmedP g1 g2) } }

/-- The six values returned by `perform_t_tests`. -/
structure TTestsOut where
  tPooled : ℚ
  pPooled : ℚ
  dfPooled : ℚ
  tSeparate : ℚ
  pSeparate : ℚ
  dfSeparate : ℚ
deriving DecidableEq

/-- `perform_t_tests` of `two_sample_t_test_api.py`.
`stats.ttest_ind(g1, g2, equal_var=True)` is embedded by its formula:
pooled variance `((n1−1)·v1 + (n2−1)·v2) / (n1+n2−2)`, statistic
`(m1−m2) / sqrt(svar·(1/n1 + 1/n2))`, two-sided p-value
`2·(1 − tCdf(|t|, n1+n2−2))`; `equal_var=False` uses
`(m1−m2) / sqrt(v1/n1 + v2/n2)` with the Welch–Satterthwaite degrees of
freedom, which the source recomputes explicitly as `df_separate`. -/
def performTTests (D : Dists) (g1 g2 : List ℚ) : TTestsOut :=
  let n1 : ℚ := g1.length
  let n2 : ℚ := g2.length
  let v1 := sampleVar g1
  let v2 := sampleVar g2
  let dfPooled := n1 + n2 - 2
  let svar := ((n1 - 1) * v1 + (n2 - 1) * v2) / dfPooled
  let tPooled := (mean g1 - mean g2) / D.sqrt (svar * (1 / n1 + 1 / n2))
  let dfSeparate := (v1 / n1 + v2 / n2) ^ 2 /
    ((v1 / n1) ^ 2 / (n1 - 1) + (v2 / n2) ^ 2 / (n2 - 1))
  let tSeparate := (mean g1 - mean g2) / D.sqrt (v1 / n1 + v2 / n2)
  { tPooled := tPooled
    pPooled := 2 * (1 - D.tCdf |tPooled| dfPooled)
    dfPooled := dfPooled
    tSeparate := tSeparate
    pSeparate := 2 * (1 - D.tCdf |tSeparate| dfSeparate)
    dfSeparate := dfSeparate }

/-- `compute_confidence_interval` of `two_sample_t_test_api.py`. -/
def computeConfidenceInterval (D : Dists) (meanDiff std1 std2 n1 n2 confidence df : ℚ) :
    ℚ × ℚ :=
  let seDiff := D.sqrt (std1 ^ 2 / n1 + std2 ^ 2 / n2)
  let tCritical := D.tPpf (1 - (1 - confidence) / 2) df
  (meanDiff - tCritical * seDiff, meanDiff + tCritical * seDiff)

/-- `calculate_power` of `two_sample_t_test_api.py`. -/
def calculatePower (D : Dists) (n1 n2 std1 std2 alpha meanDiff : ℚ) : ℚ :=
  let effectSize := meanDiff / D.sqrt ((std1 ^ 2 + std2 ^ 2) / 2)
  D.powerTInd effectSize n1 (n2 / n1) alpha

/-- One entry of the `T-Test Results` dictionary (Student or Welch). -/
structure TTestEntry where
  t : ℚ
  df : ℚ
  ciLower : ℚ
  ciUpper : ℚ
  pTwoTailed : ℚ
  pOneTailed : ℚ
  powerTwoTailed : ℚ
  powerOneTailed : ℚ
deriving DecidableEq

/-- The output structure of `calculate_and_format_two_sample_t_test`. -/
structure TwoSampleResult where
  normality : NormVarResults
  mean1 : ℚ
  mean2 : ℚ
  std1 : ℚ
  std2 : ℚ
  meanDifference : ℚ
  student : Option TTestEntry
  welch : Option TTestEntry
deriving DecidableEq

/-- `calculate_and_format_two_sample_t_test` of
`two_sample_t_test_api.py`.  Note that the diagnostics are invoked with
`alpha` as their `reject_threshold`, that a single confidence interval is
computed with the Welch degrees of freedom (`df_separate`) and shared by
both variants, and that each variant's one-tailed p-value is its
two-tailed p-value halved. -/
def calculateAndFormatTwoSampleTTest (D : Dists) (g1 g2 : List ℚ)
    (alpha confidence : ℚ)
    (shapiroWilk kolmoWithCorrection studentsTtest welchsTtest : Bool) :
    TwoSampleResult :=
  let testResults :=
    performNormalityAndVarianceTests D g1 g2 alpha shapiroWilk kolmoWithCorrection
  let mean1 := mean g1
  let mean2 := mean g2
  let std1 := D.sqrt (sampleVar g1)
  let std2 := D.sqrt (sampleVar g2)
  let meanDifference := mean1 - mean2
  let tt := performTTests D g1 g2
  let ci := computeConfidenceInterval D meanDifference std1 std2 g1.length g2.length
    confidence tt.dfSeparate
  let powerTwoTailed := calculatePower D g1.length g2.length std1 std2 alpha meanDifference
  let powerOneTailed := calculatePower D g1.length g2.length std1 std2 (alpha / 2) meanDifference
  { normality := testResults
    mean1 := mean1
    mean2 := mean2
    std1 := std1
    std2 := std2
    meanDifference := meanDifference
    student :=
      if studentsTtest then
        some { t := tt.tPooled
               df := tt.dfPooled
               ciLower := ci.1
               ciUpper := ci.2
               pTwoTailed := tt.pPooled
               pOneTailed := tt.pPooled / 2
               powerTwoTailed := powerTwoTailed
               powerOneTailed := powerOneTailed }
      else none
    welch :=
      if welchsTtest then
        some { t := tt.tSeparate
               df := tt.dfSeparate
               ciLower := ci.1
               ciUpper := ci.2
               pTwoTailed := tt.pSeparate
               pOneTailed := tt.pSeparate / 2
               powerTwoTailed := powerTwoTailed
               powerOneTailed := powerOneTailed }
      else none }

/-- C2: for valid samples with both variants requested, the two-sample
engine reports pooled degrees of freedom `n1 + n2 − 2` for the Student
variant and the Welch–Satterthwaite degrees of freedom for the Welch
variant; both variants carry the single confidence interval computed once
with the Welch degrees of freedom; and each variant's one-tailed p-value
is its two-tailed p-value divided by two. -/
theorem two_sample_df_ci_one_tailed (D : Dists) (g1 g2 : List ℚ)
    (alpha confidence : ℚ) (sw kc : Bool)
    (_h1 : 2 ≤ g1.length) (_h2 : 2 ≤ g2.length) :
    ∃ eS eW,
      (calculateAndFormatTwoSampleTTest D g1 g2 alpha confidence sw kc true true).student
        = some eS ∧
      (calculateAndFormatTwoSampleTTest D g1 g2 alpha confidence sw kc true true).welch
        = some eW ∧
      eS.df = (g1.length : ℚ) + g2.length - 2 ∧
      eW.df = (sampleVar g1 / g1.length + sampleVar g2 / g2.length) ^ 2 /
        ((sampleVar g1 / g1.length) ^ 2 / ((g1.length : ℚ) - 1) +
         (sampleVar g2 / g2.length) ^ 2 / ((g2.length : ℚ) - 1)) ∧
      (eS.ciLower, eS.ciUpper) = (eW.ciLower, eW.ciUpper) ∧
      (eW.ciLower, eW.ciUpper) = computeConfidenceInterval D (mean g1 - mean g2)
        (D.sqrt (sampleVar g1)) (D.sqrt (sampleVar g2)) g1.length g2.length
        confidence eW.df ∧
      eS.pOneTailed = eS.pTwoTailed / 2 ∧
      eW.pOneTailed = eW.pTwoTailed / 2 :=
  ⟨_, _, rfl, rfl, rfl, rfl, rfl, rfl, rfl, rfl⟩

theorem two_sample_df_ci_one_tailed_witness :
    ∃ eS eW,
      (calculateAndFormatTwoSampleTTest D0 [(1 : ℚ), 2, 3] [4, 5, 6] (1/20) (19/20)
        false false true true).student = some eS ∧
      (calculateAndFormatTwoSampleTTest D0 [(1 : ℚ), 2, 3] [4, 5, 6] (1/20) (19/20)
        false false true true).welch = some eW ∧
      eS.df = (([(1 : ℚ), 2, 3].length : ℚ) + [(4 : ℚ), 5, 6].length - 2) ∧
      eW.df = (sampleVar [(1 : ℚ), 2, 3] / [(1 : ℚ), 2, 3].length +
          sampleVar [(4 : ℚ), 5, 6] / [(4 : ℚ), 5, 6].length) ^ 2 /
        ((sampleVar [(1 : ℚ), 2, 3] / [(1 : ℚ), 2, 3].length) ^ 2 /
            (([(1 : ℚ), 2, 3].length : ℚ) - 1) +
         (sampleVar [(4 : ℚ), 5, 6] / [(4 : ℚ), 5, 6].length) ^ 2 /
            (([(4 : ℚ), 5, 6].length : ℚ) - 1)) ∧
      (eS.ciLower, eS.ciUpper) = (eW.ciLower, eW.ciUpper) ∧
      (eW.ciLower, eW.ciUpper) = computeConfidenceInterval D0
        (mean [(1 : ℚ), 2, 3] - mean [(4 : ℚ), 5, 6])
        (D0.sqrt (sampleVar [(1 : ℚ), 2, 3])) (D0.sqrt (sampleVar [(4 : ℚ), 5, 6]))
        [(1 : ℚ), 2, 3].length [(4 : ℚ), 5, 6].length (19/20) eW.df ∧
      eS.pOneTailed = eS.pTwoTailed / 2 ∧
      eW.pOneTailed = eW.pTwoTailed / 2 :=
  two_sample_df_ci_one_tailed D0 [(1 : ℚ), 2, 3] [4, 5, 6] (1/20) (19/20)
    false false (by decide) (by decide)

/-- C8: when the two groups have equal length and equal Bessel-corrected
sample variance, the pooled variance collapses to the common variance and
the two radicands coincide, so the Welch t-statistic computed by
`perform_t_tests` equals the Student t-statistic of the same call. -/
theorem welch_student_t_coincide (D : Dists) (g1 g2 : List ℚ)
    (hlen : g1.length = g2.length) (h2 : 2 ≤ g1.length)
    (hvar : sampleVar g1 = sampleVar g2) :
    (performTTests D g1 g2).tSeparate = (performTTests D g1 g2).tPooled := by
  simp only [performTTests]
  rw [hvar, hlen]
  have hn : (2 : ℚ) ≤ (g2.length : ℚ) := by exact_mod_cast hlen ▸ h2
  have hn0 : (g2.length : ℚ) ≠ 0 := by linarith
  have hn1 : (g2.length : ℚ) - 1 ≠ 0 := by
    intro h
    have : (g2.length : ℚ) = 1 := by linarith
    linarith
  have hnn : (g2.length : ℚ) + g2.length - 2 ≠ 0 := by
    intro h
    have : (g2.length : ℚ) = 1 := by linarith
    linarith
  congr 2
  field_simp [hn0, hnn]
  ring

theorem welch_student_t_coincide_witness :
    (performTTests D0 [(0 : ℚ), 2] [1, 3]).tSeparate =
      (performTTests D0 [(0 : ℚ), 2] [1, 3]).tPooled :=
  welch_student_t_coincide D0 [(0 : ℚ), 2] [1, 3] rfl (by decide)
    (by norm_num [sampleVar, mean])

/-- C3 counterexample: the paired engine computes the differences as
`before − after`, not `after − before` as claimed.  On
`before = [1, 2]`, `after = [3, 4]` the engine's mean difference is `−2`,
while the claimed convention gives `+2`. -/
theorem paired_sign_counterexample :
    (calculatePairedTTest D0 [(1 : ℚ), 2] [3, 4] (19/20) (1/20) false false).meanDiff
        = -2 ∧
    mean (List.zipWith (fun x y => x - y) [(3 : ℚ), 4] [1, 2]) = 2 ∧
    ((-2 : ℚ) ≠ 2) := by
  refine ⟨?_, ?_, by norm_num⟩
  · show mean (List.zipWith (fun x y => x - y) [(1 : ℚ), 2] [3, 4]) = -2
    norm_num [mean]
  · norm_num [mean]

/-- C3 (amended): the paired t-test engine computes per-element
differences `d_i = before_i − after_i` (not `after − before`), test
statistic `t = mean(d) / se(d)`, degrees of freedom `n − 1`, a two-tailed
p-value `2·(1 − tCdf(|t|, n−1))`, a confidence interval centered on the
mean difference using the t critical value, and a one-tailed p-value
equal to the two-tailed p-value divided by two.  The hypothesis on `sqrt`
(true of the real square root) identifies `sqrt(var/n)` inside
`ttest_rel` with `sqrt(var)/sqrt(n)` in the standard error. -/
theorem paired_t_test_spec (D : Dists) (before after : List ℚ)
    (conf alpha : ℚ) (sw kc : Bool)
    (hsqrtDiv : ∀ a b : ℚ, D.sqrt (a / b) = D.sqrt a / D.sqrt b)
    (hconf : 0 < conf ∧ conf < 1)
    (hlen : before.length = after.length) (h2 : 2 ≤ before.length) :
    ∃ r, performPairedTTest D before after conf alpha sw kc = .ok r ∧
      r.differences = List.zipWith (fun x y => x - y) before after ∧
      r.meanDiff = mean r.differences ∧
      r.semDiff = D.sqrt (sampleVar r.differences) / D.sqrt before.length ∧
      r.tStat = r.meanDiff / r.semDiff ∧
      r.degreesOfFreedom = before.length - 1 ∧
      r.pTwoTailed = 2 * (1 - D.tCdf |r.tStat| ((before.length : ℚ) - 1)) ∧
      r.ciLower = r.meanDiff -
        D.tPpf ((1 + conf) / 2) ((before.length : ℚ) - 1) * r.semDiff ∧
      r.ciUpper = r.meanDiff +
        D.tPpf ((1 + conf) / 2) ((before.length : ℚ) - 1) * r.semDiff ∧
      r.pOneTailed = r.pTwoTailed / 2 := by
  refine ⟨calculatePairedTTest D before after conf alpha sw kc, ?_, rfl, rfl, rfl,
    ?_, rfl, rfl, rfl, rfl, rfl⟩
  · simp only [performPairedTTest]
    rw [if_pos hconf, if_pos ⟨hlen, h2⟩]
  · show mean (List.zipWith (fun x y => x - y) before after) /
        D.sqrt (sampleVar (List.zipWith (fun x y => x - y) before after) /
          (before.length : ℚ)) = _
    rw [hsqrtDiv]
    rfl

theorem paired_t_test_spec_witness :
    ∃ r, performPairedTTest D0 [(1 : ℚ), 2, 3] [2, 3, 5] (19/20) (1/20) false false
        = .ok r ∧
      r.differences = List.zipWith (fun x y => x - y) [(1 : ℚ), 2, 3] [2, 3, 5] ∧
      r.meanDiff = mean r.differences ∧
      r.semDiff = D0.sqrt (sampleVar r.differences) /
        D0.sqrt [(1 : ℚ), 2, 3].length ∧
      r.tStat = r.meanDiff / r.semDiff ∧
      r.degreesOfFreedom = [(1 : ℚ), 2, 3].length - 1 ∧
      r.pTwoTailed = 2 * (1 - D0.tCdf |r.tStat| (([(1 : ℚ), 2, 3].length : ℚ) - 1)) ∧
      r.ciLower = r.meanDiff -
        D0.tPpf ((1 + 19/20) / 2) (([(1 : ℚ), 2, 3].length : ℚ) - 1) * r.semDiff ∧
      r.ciUpper = r.meanDiff +
        D0.tPpf ((1 + 19/20) / 2) (([(1 : ℚ), 2, 3].length : ℚ) - 1) * r.semDiff ∧
      r.pOneTailed = r.pTwoTailed / 2 :=
  paired_t_test_spec D0 [(1 : ℚ), 2, 3] [2, 3, 5] (19/20) (1/20) false false
    (fun _ _ => rfl) (by norm_num) rfl (by decide)

/-- C4: the claim's degenerate case.  `sampleVar [5, 5, 5] = 0`, so the
sample standard deviation is 0 and the t-statistic divides by a zero
standard error; the source divides numpy scalars there, which does not
raise `ZeroDivisionError` (it yields −inf with a runtime warning), so the
one-sample engine returns a 200 result with standard error 0 instead of
failing with a division-by-zero or insufficient-data error. -/
theorem one_sample_zero_sd_returns_result :
    sampleVar [(5 : ℚ), 5, 5] = 0 ∧
    ∃ r, oneSampleTTest D0 [(5 : ℚ), 5, 5] 50 (19/20) (1/20) (1/20) false false false
        = .ok r ∧ r.sampleStd = 0 ∧ r.standardError = 0 := by
  have hv : sampleVar [(5 : ℚ), 5, 5] = 0 := by norm_num [sampleVar, mean]
  refine ⟨hv, _, rfl, ?_, ?_⟩
  · show D0.sqrt (sampleVar [(5 : ℚ), 5, 5]) = 0
    rw [hv]
    rfl
  · show D0.sqrt (sampleVar [(5 : ℚ), 5, 5]) / D0.sqrt ([(5 : ℚ), 5, 5].length : ℚ) = 0
    rw [hv]
    norm_num [D0]

/-- A second concrete routine bundle whose Shapiro–Wilk p-value is 0.3,
used to evaluate the normality classification on concrete inputs. -/
def D1 : Dists := { D0 with shapiroP := fun _ => 3/10 }

/-- C5 counterexample: in the two-sample family the normality
classification threshold is the caller-supplied alpha, not the fixed
0.05.  With `alpha = 0.5` and a Shapiro–Wilk p-value of 0.3 the entry's
p-value exceeds 0.05 yet is classified "Failed". -/
theorem normality_threshold_counterexample :
    ∃ e, (calculateAndFormatTwoSampleTTest D1 [(1 : ℚ), 2, 3] [4, 5, 6] (1/2) (19/20)
        true false true true).normality.shapiro = some e ∧
      e.pValue = 3/10 ∧ ((1 : ℚ)/20 < e.pValue) ∧ e.passed = false := by
  refine ⟨_, rfl, ?_, ?_, ?_⟩
  · show min (D1.shapiroP [(1 : ℚ), 2, 3]) (D1.shapiroP [4, 5, 6]) = 3/10
    norm_num [D1]
  · show (1 : ℚ)/20 < min (D1.shapiroP [(1 : ℚ), 2, 3]) (D1.shapiroP [4, 5, 6])
    norm_num [D1]
  · show decide ((1 : ℚ)/2 < min (D1.shapiroP [(1 : ℚ), 2, 3]) (D1.shapiroP [4, 5, 6]))
        = false
    norm_num [D1]

/-- C5 (amended): the paired-family and one-sample-family normality
diagnostics classify "Passed" exactly when the diagnostic's p-value is
strictly greater than the fixed threshold 0.05, independent of the
caller-supplied alpha; the two-sample family instead classifies against
the caller-supplied alpha (`calculate_and_format_two_sample_t_test`
passes `alpha` as the `reject_threshold`). -/
theorem normality_thresholds (D : Dists)
    (before after sample g1 g2 : List ℚ)
    (conf alpha popMean confL pReject alphaOne alpha2 conf2 : ℚ)
    (sw kc swo kco db so wo : Bool) :
    (∀ e, (calculatePairedTTest D before after conf alpha sw kc).shapiro = some e →
      (e.passed = true ↔ (1 : ℚ)/20 < e.pValue)) ∧
    (∀ e, (calculatePairedTTest D before after conf alpha sw kc).kolmogorov = some e →
      (e.passed = true ↔ (1 : ℚ)/20 < e.pValue)) ∧
    (∀ r, oneSampleTTest D sample popMean confL pReject alphaOne swo kco db = .ok r →
      (∀ e, r.shapiro = some e → (e.passed = true ↔ (1 : ℚ)/20 < e.pValue)) ∧
      (∀ e, r.kolmogorov = some e → (e.passed = true ↔ (1 : ℚ)/20 < e.pValue))) ∧
    (∀ e, (calculateAndFormatTwoSampleTTest D g1 g2 alpha2 conf2 sw kc so wo).normality.shapiro
        = some e → (e.passed = true ↔ alpha2 < e.pValue)) ∧
    (∀ e, (calculateAndFormatTwoSampleTTest D g1 g2 alpha2 conf2 sw kc so wo).normality.kolmogorov
        = some e → (e.passed = true ↔ alpha2 < e.pValue)) := by
  refine ⟨?_, ?_, ?_, ?_, ?_⟩
  · intro e he
    simp only [calculatePairedTTest] at he
    split at he
    · cases he
      simp
    · cases he
  · intro e he
    simp only [calculatePairedTTest] at he
    split at he
    · cases he
      simp
    · cases he
  · intro r hr
    simp only [oneSampleTTest] at hr
    split at hr
    · cases hr
    · cases hr
      constructor
      · intro e he
        by_cases hdb : (db && swo) = true
        · simp only [if_pos hdb] at he
          cases he
          simp
        · simp only [if_neg hdb] at he
          cases he
      · intro e he
        by_cases hdb : (db && kco) = true
        · simp only [if_pos hdb] at he
          cases he
          simp
        · simp only [if_neg hdb] at he
          cases he
  · intro e he
    simp only [calculateAndFormatTwoSampleTTest, performNormalityAndVarianceTests] at he
    split at he
    · cases he
      simp
    · cases he
  · intro e he
    simp only [calculateAndFormatTwoSampleTTest, performNormalityAndVarianceTests] at he
    split at he
    · cases he
      simp
    · cases he

theorem normality_thresholds_witness :
    (∃ e, (calculatePairedTTest D1 [(1 : ℚ), 2] [3, 4] (19/20) (1/2) true false).shapiro
        = some e ∧ (e.passed = true ↔ (1 : ℚ)/20 < e.pValue)) ∧
    (∃ f, (calculateAndFormatTwoSampleTTest D1 [(1 : ℚ), 2, 3] [4, 5, 6] (1/2) (19/20)
        true false true true).normality.shapiro = some f ∧
      (f.passed = true ↔ (1 : ℚ)/2 < f.pValue)) := by
  constructor
  · exact ⟨_, rfl,
      (normality_thresholds D1 [(1 : ℚ), 2] [3, 4] [] [] [] (19/20) (1/2) 0 0 0 0 (1/2) 0
        true false false false false false false).1 _ rfl⟩
  · exact ⟨_, rfl,
      (normality_thresholds D1 [] [] [] [(1 : ℚ), 2, 3] [4, 5, 6] 0 0 0 0 0 0 (1/2) (19/20)
        true false false false false true true).2.2.2.1 _ rfl⟩

/-! ## Two-independent-sample Z-test (`two_sample_z_test_api.py`,
`perform_two_sample_ztest`) -/

/-- Failure outcomes of `perform_two_sample_ztest` before a result is
produced: an out-of-range confidence level (route `ValueError`), or an
alternative token that statsmodels' `ztest` rejects (`ValueError`).  Both
map to 400. -/
inductive TwoSampleZError
  | badConfidence
  | badAlternative
deriving DecidableEq

/-- The computation fields of the two-sample Z-test result. -/
structure TwoSampleZResult where
  zStat : ℚ
  pValue : ℚ
  meanDiff : ℚ
  ciLower : ℚ
  ciUpper : ℚ
  conclusion : Conclusion
deriving DecidableEq

/-- `statsmodels.stats.weightstats.ztest(x1, x2, alternative=...)` with
its defaults (`value=0`, `usevar='pooled'`, `ddof=1`), embedded by its
formula: pooled variance `((n1−1)v1 + (n2−1)v2)/(n1+n2−2)` scaled by
`1/n1 + 1/n2`, `z = (m1 − m2)/sqrt(...)` (numpy scalars: total
division), and the p-value per alternative: two-sided `2·(1 − Φ(|z|))`,
larger `1 − Φ(z)`, smaller `Φ(z)`; any other token raises
`ValueError`. -/
def ztestStatsmodels (D : Dists) (g1 g2 : List ℚ) (alternative : String) :
    Except TwoSampleZError (ℚ × ℚ) :=
  let n1 : ℚ := g1.length
  let n2 : ℚ := g2.length
  let varPooled :=
    (((n1 - 1) * sampleVar g1 + (n2 - 1) * sampleVar g2) / (n1 + n2 - 2)) *
      (1 / n1 + 1 / n2)
  let zStat := (mean g1 - mean g2) / D.sqrt varPooled
  if alternative = "two-sided" then .ok (zStat, 2 * (1 - D.normCdf |zStat|))
  else if alternative = "larger" then .ok (zStat, 1 - D.normCdf zStat)
  else if alternative = "smaller" then .ok (zStat, D.normCdf zStat)
  else .error .badAlternative

/-- The computation core of `perform_two_sample_ztest`
(`two_sample_z_test_api.py`), taking the two already-separated groups
(the data-frame grouping and column extraction are transport-layer
normalization).  Confidence must lie strictly between 0 and 1; the
statistic and p-value come from statsmodels' `ztest`; the confidence
interval uses the unpooled standard error `(s1²/n1 + s2²/n2)**0.5`
(`**0.5` is the square root) and the normal critical value; the
conclusion compares the p-value against `1 − confidence` with strict
less-than. -/
def performTwoSampleZTest (D : Dists) (g1 g2 : List ℚ) (confidence : ℚ)
    (alternative : String) : Except TwoSampleZError TwoSampleZResult :=
  if 0 < confidence ∧ confidence < 1 then
    match ztestStatsmodels D g1 g2 alternative with
    | .error e => .error e
    | .ok (zStat, pValue) =>
      let meanDiff := mean g1 - mean g2
      let stdErr := D.sqrt (D.sqrt (sampleVar g1) ^ 2 / g1.length +
        D.sqrt (sampleVar g2) ^ 2 / g2.length)
      let zCritical := D.normPpf (1 - (1 - confidence) / 2)
      .ok { zStat := zStat
            pValue := pValue
            meanDiff := meanDiff
            ciLower := meanDiff - zCritical * stdErr
            ciUpper := meanDiff + zCritical * stdErr
            conclusion := if pValue < 1 - confidence then .reject else .noReject }
  else .error .badConfidence

/-- The conclusion selector shape shared by the four engines: strict
less-than chooses the reject value, and a tie lands on the noReject
value. -/
theorem conclusionIte_spec (p thr : ℚ) :
    ((if p < thr then Conclusion.reject else Conclusion.noReject) = .reject ↔ p < thr) ∧
    (p = thr → (if p < thr then Conclusion.reject else Conclusion.noReject)
      = .noReject) := by
  constructor
  · split_ifs with h
    · simp [h]
    · simp [h]
  · intro heq
    rw [heq, if_neg (lt_irrefl thr)]

/-- C6: in every conclusion-producing family — two-proportion Z-test,
two-sample Z-test, one-sample t-test and paired t-test — the conclusion
is one of exactly two values, chosen by strict less-than against the
family's threshold (`alpha_value`, `1 − confidence`, `P_value_reject`,
`alpha` respectively); a p-value equal to the threshold produces the
"not rejected"/"no significant difference" value. -/
theorem conclusion_strict_threshold (D : Dists)
    (alpha yates conf s1 p1 s2 p2 : ℚ)
    (sample : List ℚ) (popMean confL pReject alphaOne : ℚ) (sw kc db : Bool)
    (before after : List ℚ) (conf2 alpha2 : ℚ) (sw2 kc2 : Bool)
    (gz1 gz2 : List ℚ) (confZ : ℚ) (altZ : String)
    (hA : 0 ≤ alpha ∧ alpha ≤ 1) (hY : 0 ≤ yates ∧ yates ≤ 1)
    (hC : 1 ≤ conf ∧ conf ≤ 99) (hP : 0 ≤ p1 ∧ p1 ≤ 1 ∧ 0 ≤ p2 ∧ p2 ≤ 1)
    (hsum : s1 + s2 ≠ 0) (hs1 : s1 ≠ 0) (hs2 : s2 ≠ 0)
    (hse : D.sqrt ((s1 * p1 + s2 * p2) / (s1 + s2) *
      (1 - (s1 * p1 + s2 * p2) / (s1 + s2)) * (1 / s1 + 1 / s2)) ≠ 0) :
    (∀ r, performZTest D alpha yates conf s1 p1 s2 p2 = .ok r →
      (r.conclusion = .reject ↔ r.pValue < alpha) ∧
      (r.pValue = alpha → r.conclusion = .noReject)) ∧
    (∀ r, oneSampleTTest D sample popMean confL pReject alphaOne sw kc db = .ok r →
      (r.conclusion = .reject ↔ r.pValue < pReject) ∧
      (r.pValue = pReject → r.conclusion = .noReject)) ∧
    ((calculatePairedTTest D before after conf2 alpha2 sw2 kc2).interpretation
        = .reject ↔
      (calculatePairedTTest D before after conf2 alpha2 sw2 kc2).pTwoTailed < alpha2) ∧
    ((calculatePairedTTest D before after conf2 alpha2 sw2 kc2).pTwoTailed = alpha2 →
      (calculatePairedTTest D before after conf2 alpha2 sw2 kc2).interpretation
        = .noReject) ∧
    (∀ r, performTwoSampleZTest D gz1 gz2 confZ altZ = .ok r →
      (r.conclusion = .reject ↔ r.pValue < 1 - confZ) ∧
      (r.pValue = 1 - confZ → r.conclusion = .noReject)) := by
  refine ⟨?_, ?_, ?_, ?_, ?_⟩
  · intro r hr
    rw [performZTest_ok_eq D alpha yates conf s1 p1 s2 p2 hA hY hC hP hsum hs1 hs2 hse]
      at hr
    cases hr
    exact conclusionIte_spec _ alpha
  · intro r hr
    simp only [oneSampleTTest] at hr
    split at hr
    · cases hr
    · cases hr
      exact conclusionIte_spec _ pReject
  · exact (conclusionIte_spec _ alpha2).1
  · exact (conclusionIte_spec _ alpha2).2
  · intro r hr
    simp only [performTwoSampleZTest] at hr
    split at hr
    · split at hr
      · cases hr
      · cases hr
        exact conclusionIte_spec _ (1 - confZ)
    · cases hr

theorem conclusion_strict_threshold_witness :
    (∃ r, performZTest D0 (1/20) 0 95 40 (3/10) 60 (7/10) = .ok r ∧
      (r.conclusion = .reject ↔ r.pValue < 1/20) ∧
      (r.pValue = 1/20 → r.conclusion = .noReject)) ∧
    (∃ r, oneSampleTTest D0 [(1 : ℚ), 2, 3] 0 (19/20) (1/20) (1/20) false false false
        = .ok r ∧ (r.conclusion = .reject ↔ r.pValue < 1/20) ∧
      (r.pValue = 1/20 → r.conclusion = .noReject)) ∧
    ((calculatePairedTTest D0 [(1 : ℚ), 2] [3, 4] (19/20) (1/20) false false).interpretation
        = .reject ↔
      (calculatePairedTTest D0 [(1 : ℚ), 2] [3, 4] (19/20) (1/20) false false).pTwoTailed
        < 1/20) ∧
    (∃ r, performTwoSampleZTest D0 [(1 : ℚ), 2] [3, 4] (19/20) "two-sided" = .ok r ∧
      (r.conclusion = .reject ↔ r.pValue < 1 - 19/20) ∧
      (r.pValue = 1 - 19/20 → r.conclusion = .noReject)) := by
  have h := conclusion_strict_threshold D0 (1/20) 0 95 40 (3/10) 60 (7/10)
    [(1 : ℚ), 2, 3] 0 (19/20) (1/20) (1/20) false false false
    [(1 : ℚ), 2] [3, 4] (19/20) (1/20) false false
    [(1 : ℚ), 2] [3, 4] (19/20) "two-sided"
    (by norm_num) (by norm_num) (by norm_num) (by norm_num)
    (by norm_num) (by norm_num) (by norm_num) (by norm_num [D0])
  have hz : ∃ r, performZTest D0 (1/20) 0 95 40 (3/10) 60 (7/10) = .ok r := by
    refine ⟨_, performZTest_ok_eq D0 (1/20) 0 95 40 (3/10) 60 (7/10) (by norm_num)
      (by norm_num) (by norm_num) (by norm_num) (by norm_num) (by norm_num)
      (by norm_num) (by norm_num [D0])⟩
  have hz2 : ∃ r, performTwoSampleZTest D0 [(1 : ℚ), 2] [3, 4] (19/20) "two-sided"
      = .ok r := by
    simp only [performTwoSampleZTest, ztestStatsmodels]
    rw [if_pos (show (0 : ℚ) < 19/20 ∧ (19/20 : ℚ) < 1 by norm_num), if_pos trivial]
    exact ⟨_, rfl⟩
  obtain ⟨rz, hrz⟩ := hz
  obtain ⟨rz2, hrz2⟩ := hz2
  exact ⟨⟨rz, hrz, h.1 rz hrz⟩, ⟨_, rfl, h.2.1 _ rfl⟩, h.2.2.1,
    ⟨rz2, hrz2, h.2.2.2.2 rz2 hrz2⟩⟩

/-- `c ≤ 1` gives `1 - c ≤ 2 (1 - c)`: a survival probability and its
doubling. -/
theorem one_sub_le_two_one_sub (c : ℚ) (h : c ≤ 1) : 1 - c ≤ 2 * (1 - c) := by
  linarith

/-- `c ≤ 1` gives `2 (1 - c) / 2 ≤ 2 (1 - c)`: halving a nonnegative
two-tailed p-value cannot increase it. -/
theorem half_two_one_sub_le (c : ℚ) (h : c ≤ 1) : 2 * (1 - c) / 2 ≤ 2 * (1 - c) := by
  linarith

/-- C7: in every engine that reports both tails (one-sample, paired, and
both two-sample variants), the reported two-tailed p-value is ≥ the
corresponding one-tailed p-value, provided the t CDF routine is bounded
by 1 (true of any CDF). -/
theorem two_tailed_ge_one_tailed (D : Dists)
    (hcdf : ∀ x df, D.tCdf x df ≤ 1)
    (sample : List ℚ) (popMean confL pReject alphaOne : ℚ) (sw kc db : Bool)
    (before after : List ℚ) (conf2 alpha2 : ℚ) (sw2 kc2 : Bool)
    (g1 g2 : List ℚ) (alpha3 conf3 : ℚ) (f1 f2 f3 f4 : Bool) :
    (∀ r, oneSampleTTest D sample popMean confL pReject alphaOne sw kc db = .ok r →
      r.pOneTailed ≤ r.pTwoTailed) ∧
    ((calculatePairedTTest D before after conf2 alpha2 sw2 kc2).pOneTailed ≤
      (calculatePairedTTest D before after conf2 alpha2 sw2 kc2).pTwoTailed) ∧
    (∀ e, (calculateAndFormatTwoSampleTTest D g1 g2 alpha3 conf3 f1 f2 f3 f4).student
        = some e → e.pOneTailed ≤ e.pTwoTailed) ∧
    (∀ e, (calculateAndFormatTwoSampleTTest D g1 g2 alpha3 conf3 f1 f2 f3 f4).welch
        = some e → e.pOneTailed ≤ e.pTwoTailed) := by
  refine ⟨?_, ?_, ?_, ?_⟩
  · intro r hr
    simp only [oneSampleTTest] at hr
    split at hr
    · cases hr
    · cases hr
      exact one_sub_le_two_one_sub _ (hcdf _ _)
  · simp only [calculatePairedTTest]
    exact half_two_one_sub_le _ (hcdf _ _)
  · intro e he
    simp only [calculateAndFormatTwoSampleTTest] at he
    split at he
    · cases he
      simp only [performTTests]
      exact half_two_one_sub_le _ (hcdf _ _)
    · cases he
  · intro e he
    simp only [calculateAndFormatTwoSampleTTest] at he
    split at he
    · cases he
      simp only [performTTests]
      exact half_two_one_sub_le _ (hcdf _ _)
    · cases he

theorem two_tailed_ge_one_tailed_witness :
    (∃ r, oneSampleTTest D0 [(1 : ℚ), 2, 3] 0 (19/20) (1/20) (1/20) false false false
        = .ok r ∧ r.pOneTailed ≤ r.pTwoTailed) ∧
    ((calculatePairedTTest D0 [(1 : ℚ), 2] [3, 4] (19/20) (1/20) false false).pOneTailed ≤
      (calculatePairedTTest D0 [(1 : ℚ), 2] [3, 4] (19/20) (1/20) false false).pTwoTailed) ∧
    (∃ e, (calculateAndFormatTwoSampleTTest D0 [(1 : ℚ), 2, 3] [4, 5, 6] (1/20) (19/20)
        false false true true).student = some e ∧ e.pOneTailed ≤ e.pTwoTailed) := by
  have h := two_tailed_ge_one_tailed D0 (fun x df => by norm_num [D0])
    [(1 : ℚ), 2, 3] 0 (19/20) (1/20) (1/20) false false false
    [(1 : ℚ), 2] [3, 4] (19/20) (1/20) false false
    [(1 : ℚ), 2, 3] [4, 5, 6] (1/20) (19/20) false false true true
  exact ⟨⟨_, rfl, h.1 _ rfl⟩, h.2.1, ⟨_, rfl, h.2.2.1 _ rfl⟩⟩

/-- C9: when a long-format paired input pivots cleanly to exactly two
treatment columns whose labels are not literally `"before"` and
`"after"`, the endpoint rejects the request with the 400 "Invalid
format" response and no computation is performed. -/
theorem long_format_requires_before_after (subject treatment : List String)
    (vals : List ℚ)
    (hlen : subject.length = treatment.length ∧ treatment.length = vals.length)
    (hnodup : ((List.zip subject (List.zip treatment vals)).map
      fun r => (r.1, r.2.1)).Nodup)
    (htwo : treatment.dedup.length = 2)
    (hlabels : treatment.dedup ≠ ["before", "after"] ∧
      treatment.dedup ≠ ["after", "before"]) :
    longFormatPivot subject treatment vals = .missingBeforeAfter := by
  have hmem : ¬("before" ∈ treatment.dedup ∧ "after" ∈ treatment.dedup) := by
    rintro ⟨hb, ha⟩
    obtain ⟨a, b, hab⟩ := List.length_eq_two.mp htwo
    rw [hab] at hb ha
    simp only [List.mem_cons, List.mem_singleton, List.not_mem_nil, or_false] at hb ha
    rcases hb with hb | hb <;> rcases ha with ha | ha
    · exact absurd (hb ▸ ha) (by decide)
    · exact hlabels.1 (by rw [hab, ← hb, ← ha])
    · exact hlabels.2 (by rw [hab, ← hb, ← ha])
    · exact absurd (hb ▸ ha) (by decide)
  simp only [longFormatPivot]
  rw [if_pos hlen, if_pos hnodup, if_neg hmem]

theorem long_format_requires_before_after_witness :
    longFormatPivot ["s1", "s2", "s1", "s2"] ["now", "later", "later", "now"]
      [(1 : ℚ), 2, 3, 4] = .missingBeforeAfter :=
  long_format_requires_before_after ["s1", "s2", "s1", "s2"]
    ["now", "later", "later", "now"] [(1 : ℚ), 2, 3, 4]
    (by decide) (by decide) (by decide) (by decide)

end Systat
